import Mathlib

/-!
Verification development for the echo MCP server
(`tests/fixtures/echo_server.py`).

The server reads newline-delimited text from stdin, accumulates it in a
buffer until the whole buffer parses as one JSON document, and dispatches
the parsed message through `EchoMCPServer.handle_request`, which writes
JSON-RPC responses to stdout.  We embed:

* JSON values (`JVal`) and a parser `jsonLoads` embedding Python's
  `json.loads` on the fragment the server exercises (objects, arrays,
  strings with escapes, integer numerals, booleans, null, surrounding
  whitespace; non-integer numerals and the `Infinity`/`NaN` extensions
  are outside the modelled fragment and are treated as parse failures);
* Python `dict.get` on JSON objects (`lookupLast`, last duplicate key
  wins, as in `json.loads`), `os.environ.get` (`envGet`), and `str()`
  formatting of decoded values (`pyStr`);
* `handle_request` (`handleTry` is the `try:` body; exceptions the body
  raises are values of `PyExc`; `handle_request` adds the
  `except Exception` boundary, which itself re-raises when the parsed
  message is not a dict, because `request.get("id")` is evaluated again
  inside the handler);
* the `main` read loop (`runLines`), operating on the list of strings
  successive `sys.stdin.readline()` calls return, with the 10,000
  character buffering ceiling and the standalone parse-error response.
-/

/-- JSON values as decoded by `json.loads`.  Numbers are modelled as
integers; the server's protocol traffic never uses fractional numerals. -/
inductive JVal where
  | null
  | bool (b : Bool)
  | num (n : Int)
  | str (s : String)
  | arr (elems : List JVal)
  | obj (fields : List (String × JVal))

/-- Whitespace accepted by `json.loads` between tokens. -/
def isJsonWs (c : Char) : Bool :=
  c = ' ' ∨ c = '\t' ∨ c = '\n' ∨ c = '\r'

/-- Drop leading JSON whitespace. -/
def skipWs : List Char → List Char
  | [] => []
  | c :: cs => if isJsonWs c then skipWs cs else c :: cs

/-- Decoded character for a single-character string escape. -/
def escChar (c : Char) : Option Char :=
  if c = '"' then some '"'
  else if c = '\\' then some '\\'
  else if c = '/' then some '/'
  else if c = 'b' then some '\x08'
  else if c = 'f' then some '\x0c'
  else if c = 'n' then some '\n'
  else if c = 'r' then some '\r'
  else if c = 't' then some '\t'
  else none

/-- Value of one hexadecimal digit. -/
def hexVal (c : Char) : Option Nat :=
  if '0' ≤ c ∧ c ≤ '9' then some (c.toNat - '0'.toNat)
  else if 'a' ≤ c ∧ c ≤ 'f' then some (c.toNat - 'a'.toNat + 10)
  else if 'A' ≤ c ∧ c ≤ 'F' then some (c.toNat - 'A'.toNat + 10)
  else none

/-- Body of a JSON string literal, after the opening quote: returns the
decoded characters and the input after the closing quote.  Raw control
characters are rejected, as by `json.loads` in its default strict mode. -/
def parseStringChars : List Char → Option (List Char × List Char)
  | [] => none
  | '"' :: cs => some ([], cs)
  | '\\' :: 'u' :: a :: b :: c :: d :: cs =>
    match hexVal a, hexVal b, hexVal c, hexVal d with
    | some va, some vb, some vc, some vd =>
      (parseStringChars cs).map
        (fun p => (Char.ofNat (((va * 16 + vb) * 16 + vc) * 16 + vd) :: p.1, p.2))
    | _, _, _, _ => none
  | '\\' :: e :: cs =>
    match escChar e with
    | some ch => (parseStringChars cs).map (fun p => (ch :: p.1, p.2))
    | none => none
  | c :: cs =>
    if c.toNat < 32 then none
    else (parseStringChars cs).map (fun p => (c :: p.1, p.2))

/-- Longest leading run of decimal digits. -/
def takeDigits : List Char → List Char × List Char
  | [] => ([], [])
  | c :: cs =>
    if c.isDigit then
      let p := takeDigits cs
      (c :: p.1, p.2)
    else ([], c :: cs)

/-- Numeric value of a digit run. -/
def digitsToNat (ds : List Char) : Nat :=
  ds.foldl (fun a c => a * 10 + (c.toNat - '0'.toNat)) 0

/-- JSON integer numeral (optional minus sign, no leading zeros).  A
numeral continued by `.`, `e` or `E` is a fractional/exponent literal,
outside the modelled fragment. -/
def parseNumber (cs : List Char) : Option (JVal × List Char) :=
  let p := match cs with
    | '-' :: r => (true, r)
    | _ => (false, cs)
  let q := takeDigits p.2
  match q.1 with
  | [] => none
  | d :: ds =>
    if d = '0' ∧ ds ≠ [] then none
    else
      match q.2 with
      | '.' :: _ => none
      | 'e' :: _ => none
      | 'E' :: _ => none
      | rest =>
        let n : Int := (digitsToNat (d :: ds) : Int)
        some (.num (if p.1 then -n else n), rest)

/-- Check that the input starts with the given literal characters. -/
def expectLit (lit : List Char) (cs : List Char) : Option (List Char) :=
  match lit, cs with
  | [], rest => some rest
  | l :: ls, c :: rest => if c = l then expectLit ls rest else none
  | _ :: _, [] => none

mutual

/-- One JSON value, fuel-bounded recursive descent (the fuel chosen by
`jsonLoads` is ample for any input that parses at all). -/
def parseVal : Nat → List Char → Option (JVal × List Char)
  | 0, _ => none
  | fuel + 1, cs =>
    match skipWs cs with
    | [] => none
    | c :: rest =>
      if c = '\x7b' then
        match skipWs rest with
        | '\x7d' :: rest2 => some (.obj [], rest2)
        | rest2 => (parseMembers fuel rest2).map (fun p => (.obj p.1, p.2))
      else if c = '[' then
        match skipWs rest with
        | ']' :: rest2 => some (.arr [], rest2)
        | rest2 => (parseElems fuel rest2).map (fun p => (.arr p.1, p.2))
      else if c = '"' then
        (parseStringChars rest).map (fun p => (.str (String.mk p.1), p.2))
      else if c = 't' then
        (expectLit ['r', 'u', 'e'] rest).map (fun r => (.bool true, r))
      else if c = 'f' then
        (expectLit ['a', 'l', 's', 'e'] rest).map (fun r => (.bool false, r))
      else if c = 'n' then
        (expectLit ['u', 'l', 'l'] rest).map (fun r => (.null, r))
      else if c = '-' ∨ c.isDigit then
        parseNumber (c :: rest)
      else none

/-- Non-empty comma-separated member list of a JSON object, up to and
including the closing brace. -/
def parseMembers : Nat → List Char → Option (List (String × JVal) × List Char)
  | 0, _ => none
  | fuel + 1, cs =>
    match skipWs cs with
    | '"' :: rest =>
      match parseStringChars rest with
      | none => none
      | some (key, rest2) =>
        match skipWs rest2 with
        | ':' :: rest3 =>
          match parseVal fuel rest3 with
          | none => none
          | some (v, rest4) =>
            match skipWs rest4 with
            | ',' :: rest5 =>
              (parseMembers fuel rest5).map
                (fun p => ((String.mk key, v) :: p.1, p.2))
            | '\x7d' :: rest5 => some ([(String.mk key, v)], rest5)
            | _ => none
        | _ => none
    | _ => none

/-- Non-empty comma-separated element list of a JSON array, up to and
including the closing bracket. -/
def parseElems : Nat → List Char → Option (List JVal × List Char)
  | 0, _ => none
  | fuel + 1, cs =>
    match parseVal fuel cs with
    | none => none
    | some (v, rest) =>
      match skipWs rest with
      | ',' :: rest2 => (parseElems fuel rest2).map (fun p => (v :: p.1, p.2))
      | ']' :: rest2 => some ([v], rest2)
      | _ => none

end

/-- Embedding of `json.loads`: the whole string must be one JSON document
surrounded by optional whitespace; anything else (including an incomplete
prefix of a document) is a parse failure. -/
def jsonLoads (s : String) : Option JVal :=
  match parseVal (2 * s.length + 2) s.toList with
  | some (v, rest) => if skipWs rest = [] then some v else none
  | none => none

/-- Process environment, as consulted by `os.environ.get`. -/
abbrev Env := List (String × String)

/-- Embedding of `os.environ.get k` (keys are unique, first match). -/
def envGet (env : Env) (k : String) : Option String :=
  match env with
  | [] => none
  | p :: rest => if p.1 = k then some p.2 else envGet rest k

/-- Embedding of `dict.get` on a decoded JSON object: `json.loads` lets a
later duplicate key overwrite an earlier one, so the last binding wins. -/
def lookupLast (fields : List (String × JVal)) (k : String) : Option JVal :=
  match fields with
  | [] => none
  | p :: rest =>
    match lookupLast rest k with
    | some v => some v
    | none => if p.1 = k then some p.2 else none

/-- Python type name of a decoded JSON value, as it appears in runtime
error messages. -/
def pyTypeName : JVal → String
  | .null => "NoneType"
  | .bool _ => "bool"
  | .num _ => "int"
  | .str _ => "str"
  | .arr _ => "list"
  | .obj _ => "dict"

mutual

/-- Python `repr()` of a decoded JSON value (the shape `f"..."` uses for
values nested in containers). -/
def pyRepr : JVal → String
  | .null => "None"
  | .bool true => "True"
  | .bool false => "False"
  | .num n => toString n
  | .str s => "'" ++ s ++ "'"
  | .arr xs => "[" ++ pyReprElems xs ++ "]"
  | .obj fs => "\x7b" ++ pyReprFields fs ++ "\x7d"

/-- Comma-separated `repr()`s of list elements. -/
def pyReprElems : List JVal → String
  | [] => ""
  | [x] => pyRepr x
  | x :: y :: xs => pyRepr x ++ ", " ++ pyReprElems (y :: xs)

/-- Comma-separated `repr()`s of dict entries. -/
def pyReprFields : List (String × JVal) → String
  | [] => ""
  | [p] => "'" ++ p.1 ++ "': " ++ pyRepr p.2
  | p :: q :: fs => "'" ++ p.1 ++ "': " ++ pyRepr p.2 ++ ", " ++ pyReprFields (q :: fs)

end

/-- Python `str()` of a decoded JSON value, as interpolated by f-strings
such as `f"Unknown tool: \x7btool_name\x7d"`. -/
def pyStr : JVal → String
  | .str s => s
  | v => pyRepr v

/-- Runtime exceptions the handler body can raise. -/
inductive PyExc where
  | attributeError (typeName : String) (attr : String)
  | typeError (msg : String)

/-- Python `str()` of an exception, as interpolated into
`f"Internal error: \x7bstr(e)\x7d"`. -/
def excStr : PyExc → String
  | .attributeError t a => "'" ++ t ++ "' object has no attribute '" ++ a ++ "'"
  | .typeError m => m

/-- `send_response`: the JSON document printed for a success response. -/
def send_response (request_id : JVal) (result : JVal) : JVal :=
  .obj [("jsonrpc", .str "2.0"), ("id", request_id), ("result", result)]

/-- `send_error`: the JSON document printed for an error response. -/
def send_error (request_id : JVal) (code : Int) (message : String) : JVal :=
  .obj [("jsonrpc", .str "2.0"), ("id", request_id),
        ("error", .obj [("code", .num code), ("message", .str message)])]

/-- The `result` payload of the `initialize` response, transcribed from
the handler. -/
def initializeResult : JVal :=
  .obj [("protocolVersion", .str "1.0"),
        ("serverInfo",
          .obj [("name", .str "echo-test-server-python"),
                ("version", .str "1.0.0")]),
        ("capabilities",
          .obj [("tools",
            .obj [("available", .arr [
              .obj [("name", .str "echo"),
                    ("description", .str "Echoes back the input message"),
                    ("inputSchema",
                      .obj [("type", .str "object"),
                            ("properties",
                              .obj [("message",
                                .obj [("type", .str "string"),
                                      ("description", .str "The message to echo")])]),
                            ("required", .arr [.str "message"])])],
              .obj [("name", .str "ping"),
                    ("description", .str "Returns 'pong'"),
                    ("inputSchema",
                      .obj [("type", .str "object"),
                            ("properties", .obj [])])],
              .obj [("name", .str "get_env"),
                    ("description", .str "Get an environment variable"),
                    ("inputSchema",
                      .obj [("type", .str "object"),
                            ("properties",
                              .obj [("name",
                                .obj [("type", .str "string"),
                                      ("description", .str "Environment variable name")])]),
                            ("required", .arr [.str "name"])])]])])])]

/-- The `try:` body of `handle_request`.  `.ok (outs, doExit)` means the
body printed the documents `outs` and, when `doExit` is true, then raised
`SystemExit(0)` via `sys.exit(0)` (which `except Exception` does not
catch).  `.error e` means the body raised `e` before printing anything:
every raising access (`request.get` on a non-dict, `params.get` or
`args.get` on a non-dict, `os.environ.get` with a non-string key) occurs
before the branch's single `print`. -/
def handleTry (env : Env) (request : JVal) : Except PyExc (List JVal × Bool) :=
  match request with
  | .obj fields =>
    let request_id := (lookupLast fields "id").getD .null
    let method := (lookupLast fields "method").getD .null
    let params := (lookupLast fields "params").getD (.obj [])
    match method with
    | .str "initialize" =>
      .ok ([send_response request_id initializeResult], false)
    | .str "tools/call" =>
      match params with
      | .obj pf =>
        let tool_name := (lookupLast pf "name").getD .null
        let args := (lookupLast pf "arguments").getD (.obj [])
        match tool_name with
        | .str "echo" =>
          match args with
          | .obj af =>
            let message := (lookupLast af "message").getD (.str "")
            let pfx := (envGet env "ECHO_PREFIX").getD "[ECHO]"
            .ok ([send_response request_id
                   (.obj [("output", .str (pfx ++ " " ++ pyStr message))])], false)
          | other => .error (.attributeError (pyTypeName other) "get")
        | .str "ping" =>
          .ok ([send_response request_id (.obj [("output", .str "pong")])], false)
        | .str "get_env" =>
          match args with
          | .obj af =>
            let var_name := (lookupLast af "name").getD (.str "")
            match var_name with
            | .str k =>
              let value := (envGet env k).getD ("<" ++ k ++ " not set>")
              .ok ([send_response request_id
                     (.obj [("output", .str (k ++ "=" ++ value))])], false)
            | other => .error (.typeError ("str expected, not " ++ pyTypeName other))
          | other => .error (.attributeError (pyTypeName other) "get")
        | other =>
          .ok ([send_error request_id (-32601) ("Unknown tool: " ++ pyStr other)], false)
      | other => .error (.attributeError (pyTypeName other) "get")
    | .str "shutdown" =>
      .ok ([send_response request_id (.obj [])], true)
    | other =>
      .ok ([send_error request_id (-32601) ("Method not found: " ++ pyStr other)], false)
  | other => .error (.attributeError (pyTypeName other) "get")

/-- Result of one `handle_request` call: the documents it printed, and how
control left the method. -/
inductive Outcome where
  | normal (outputs : List JVal)
  | exitZero (outputs : List JVal)
  | raised (outputs : List JVal) (e : PyExc)

/-- The printed documents of an outcome. -/
def Outcome.outputs : Outcome → List JVal
  | .normal outs => outs
  | .exitZero outs => outs
  | .raised outs _ => outs

/-- Server session state: `self.message_id`, set to 0 in `__init__` and
never touched again. -/
structure EchoMCPServer where
  message_id : Nat

/-- `EchoMCPServer()`. -/
def EchoMCPServer.init : EchoMCPServer := ⟨0⟩

/-- `handle_request`: the `try:` body wrapped in the `except Exception`
boundary.  When the body raises and the request is a dict, the handler
sends one internal-error response built from `request.get("id")`; when
the request is not a dict, that very `request.get("id")` inside the
handler raises a fresh `AttributeError`, which escapes `handle_request`.
No branch mutates `self`, so the state is returned unchanged. -/
def EchoMCPServer.handle_request (self : EchoMCPServer) (env : Env)
    (request : JVal) : Outcome × EchoMCPServer :=
  (match handleTry env request with
   | .ok (outs, doExit) => if doExit then .exitZero outs else .normal outs
   | .error e =>
     match request with
     | .obj fields =>
       .normal [send_error ((lookupLast fields "id").getD .null) (-32603)
                  ("Internal error: " ++ excStr e)]
     | other => .raised [] (.attributeError (pyTypeName other) "get"),
   self)

/-- The standalone parse-error document printed by `main` when the buffer
ceiling is exceeded (note: no `id` member at all). -/
def parseErrorResp : JVal :=
  .obj [("jsonrpc", .str "2.0"),
        ("error", .obj [("code", .num (-32700)), ("message", .str "Parse error")])]

/-- Result of running the `main` read loop on a list of input reads. -/
structure RunResult where
  outputs : List JVal
  exitCode : Nat
  server : EchoMCPServer

/-- The `while True` loop of `main`, applied to the successive strings
`sys.stdin.readline()` returns.  An empty string is end-of-stream
(`if not line: break`); `main` then returns and the process exits 0.
A `SystemExit(0)` escaping `handle_request` ends the process with
status 0; any other escaping exception is caught by `main`'s
`except Exception`, which logs to stderr and exits 1. -/
def runLines (env : Env) (server : EchoMCPServer) (buffer : String) :
    List String → RunResult
  | [] => ⟨[], 0, server⟩
  | line :: rest =>
    if line = "" then ⟨[], 0, server⟩
    else
      let buf := buffer ++ line
      match jsonLoads buf with
      | some request =>
        match server.handle_request env request with
        | (.normal outs, s) =>
          let r := runLines env s "" rest
          ⟨outs ++ r.outputs, r.exitCode, r.server⟩
        | (.exitZero outs, s) => ⟨outs, 0, s⟩
        | (.raised outs _, s) => ⟨outs, 1, s⟩
      | none =>
        if buf.length > 10000 then
          let r := runLines env server "" rest
          ⟨parseErrorResp :: r.outputs, r.exitCode, r.server⟩
        else runLines env server buf rest

/-- Continuation of the read loop after one message has been dispatched:
used to state that a message is dispatched exactly once and the loop
then proceeds (or stops, on exit) accordingly. -/
def dispatchCont (env : Env) (o : Outcome) (s : EchoMCPServer)
    (rest : List String) : RunResult :=
  match o with
  | .normal outs =>
    let r := runLines env s "" rest
    ⟨outs ++ r.outputs, r.exitCode, r.server⟩
  | .exitZero outs => ⟨outs, 0, s⟩
  | .raised outs _ => ⟨outs, 1, s⟩

/-- Field lookup on a response document. -/
def jgetObj (v : JVal) (k : String) : Option JVal :=
  match v with
  | .obj fields => lookupLast fields k
  | _ => none

/-- A response document carrying a `result` member. -/
def isSuccessResp (v : JVal) : Prop := (jgetObj v "result").isSome

/-- A response document carrying an `error` member. -/
def isErrorResp (v : JVal) : Prop := (jgetObj v "error").isSome

/-- A buffer that can never form valid JSON, used to exercise the
buffering ceiling: 10,001 copies of `x`. -/
def bigChunk : String := String.mk (List.replicate 10001 'x')

theorem str_empty_append (l : String) : "" ++ l = l := by
  cases l
  rfl

theorem parseVal_x_head (fuel : Nat) (cs : List Char) :
    parseVal fuel ('x' :: cs) = none := by
  cases fuel with
  | zero => rfl
  | succ n => simp [parseVal, skipWs, isJsonWs]

theorem bigChunk_append_data :
    (bigChunk ++ "y\n").data = 'x' :: (List.replicate 10000 'x' ++ ['y', '\n']) := by
  show List.replicate 10001 'x' ++ ['y', '\n'] = 'x' :: (List.replicate 10000 'x' ++ ['y', '\n'])
  rw [show (10001 : Nat) = 10000 + 1 from rfl, List.replicate_succ]
  rfl

theorem bigChunk_append_length : (bigChunk ++ "y\n").length = 10003 := by
  show (List.replicate 10001 'x' ++ ['y', '\n']).length = 10003
  rw [List.length_append, List.length_replicate]
  rfl

theorem jsonLoads_bigChunk : jsonLoads (bigChunk ++ "y\n") = none := by
  have h : (bigChunk ++ "y\n").toList = 'x' :: (List.replicate 10000 'x' ++ ['y', '\n']) :=
    bigChunk_append_data
  rw [jsonLoads, h, parseVal_x_head]

/-- C6: for every `tools/call` request invoking tool `echo` with
`arguments.message = M`, the success response's `result.output` is
`"[ECHO] " ++ M` when the `ECHO_PREFIX` environment setting is unset, and
`P ++ " " ++ M` when it is set to `P`. -/
theorem claim_C6 (env : Env) (s : EchoMCPServer)
    (fields pf af : List (String × JVal)) (M : String)
    (hm : lookupLast fields "method" = some (.str "tools/call"))
    (hp : lookupLast fields "params" = some (.obj pf))
    (hname : lookupLast pf "name" = some (.str "echo"))
    (hargs : lookupLast pf "arguments" = some (.obj af))
    (hmsg : lookupLast af "message" = some (.str M)) :
    (envGet env "ECHO_PREFIX" = none →
      (s.handle_request env (.obj fields)).1 =
        .normal [send_response ((lookupLast fields "id").getD .null)
          (.obj [("output", .str ("[ECHO] " ++ M))])]) ∧
    (∀ P : String, envGet env "ECHO_PREFIX" = some P →
      (s.handle_request env (.obj fields)).1 =
        .normal [send_response ((lookupLast fields "id").getD .null)
          (.obj [("output", .str (P ++ " " ++ M))])]) := by
  constructor
  · intro hunset
    simp [EchoMCPServer.handle_request, handleTry, hm, hp, hname, hargs, hmsg,
      hunset, pyStr]
  · intro P hset
    simp [EchoMCPServer.handle_request, handleTry, hm, hp, hname, hargs, hmsg,
      hset, pyStr]

theorem claim_C6_witness :
    lookupLast [("id", JVal.num 1), ("method", JVal.str "tools/call"),
        ("params", JVal.obj [("name", JVal.str "echo"),
          ("arguments", JVal.obj [("message", JVal.str "hi")])])] "method" =
      some (.str "tools/call") ∧
    envGet [] "ECHO_PREFIX" = none ∧
    envGet [("ECHO_PREFIX", "P:")] "ECHO_PREFIX" = some "P:" ∧
    (EchoMCPServer.init.handle_request []
        (.obj [("id", .num 1), ("method", .str "tools/call"),
          ("params", .obj [("name", .str "echo"),
            ("arguments", .obj [("message", .str "hi")])])])).1 =
      .normal [send_response (.num 1) (.obj [("output", .str "[ECHO] hi")])] ∧
    (EchoMCPServer.init.handle_request [("ECHO_PREFIX", "P:")]
        (.obj [("id", .num 1), ("method", .str "tools/call"),
          ("params", .obj [("name", .str "echo"),
            ("arguments", .obj [("message", .str "hi")])])])).1 =
      .normal [send_response (.num 1) (.obj [("output", .str "P: hi")])] :=
  ⟨rfl, rfl, rfl,
    (claim_C6 [] EchoMCPServer.init
      [("id", .num 1), ("method", .str "tools/call"),
        ("params", .obj [("name", .str "echo"),
          ("arguments", .obj [("message", .str "hi")])])]
      [("name", .str "echo"), ("arguments", .obj [("message", .str "hi")])]
      [("message", .str "hi")] "hi" rfl rfl rfl rfl rfl).1 rfl,
    (claim_C6 [("ECHO_PREFIX", "P:")] EchoMCPServer.init
      [("id", .num 1), ("method", .str "tools/call"),
        ("params", .obj [("name", .str "echo"),
          ("arguments", .obj [("message", .str "hi")])])]
      [("name", .str "echo"), ("arguments", .obj [("message", .str "hi")])]
      [("message", .str "hi")] "hi" rfl rfl rfl rfl rfl).2 "P:" rfl⟩

theorem str_eq_lt_append (x : String) : "=" ++ ("<" ++ x) = "=<" ++ x := by
  have h : ("=" ++ "<" : String) = "=<" := by decide
  rw [← String.append_assoc, h]

/-- C7: for every `tools/call` request invoking tool `get_env` with
`arguments.name = K`, the success response's `result.output` is
`K ++ "=" ++ V` when the environment binds `K` to `V`, and
`K ++ "=<" ++ K ++ " not set>"` when `K` is unset. -/
theorem claim_C7 (env : Env) (s : EchoMCPServer)
    (fields pf af : List (String × JVal)) (K : String)
    (hm : lookupLast fields "method" = some (.str "tools/call"))
    (hp : lookupLast fields "params" = some (.obj pf))
    (hname : lookupLast pf "name" = some (.str "get_env"))
    (hargs : lookupLast pf "arguments" = some (.obj af))
    (hK : lookupLast af "name" = some (.str K)) :
    (∀ V : String, envGet env K = some V →
      (s.handle_request env (.obj fields)).1 =
        .normal [send_response ((lookupLast fields "id").getD .null)
          (.obj [("output", .str (K ++ "=" ++ V))])]) ∧
    (envGet env K = none →
      (s.handle_request env (.obj fields)).1 =
        .normal [send_response ((lookupLast fields "id").getD .null)
          (.obj [("output", .str (K ++ "=<" ++ K ++ " not set>"))])]) := by
  constructor
  · intro V hset
    simp [EchoMCPServer.handle_request, handleTry, hm, hp, hname, hargs, hK, hset]
  · intro hunset
    simp [EchoMCPServer.handle_request, handleTry, hm, hp, hname, hargs, hK,
      hunset, String.append_assoc, str_eq_lt_append]

theorem claim_C7_witness :
    envGet [("HOME", "/root")] "HOME" = some "/root" ∧
    envGet [("HOME", "/root")] "NOPE" = none ∧
    (EchoMCPServer.init.handle_request [("HOME", "/root")]
        (.obj [("id", .num 4), ("method", .str "tools/call"),
          ("params", .obj [("name", .str "get_env"),
            ("arguments", .obj [("name", .str "HOME")])])])).1 =
      .normal [send_response (.num 4) (.obj [("output", .str "HOME=/root")])] ∧
    (EchoMCPServer.init.handle_request [("HOME", "/root")]
        (.obj [("id", .num 4), ("method", .str "tools/call"),
          ("params", .obj [("name", .str "get_env"),
            ("arguments", .obj [("name", .str "NOPE")])])])).1 =
      .normal [send_response (.num 4) (.obj [("output", .str "NOPE=<NOPE not set>")])] :=
  ⟨rfl, rfl,
    (claim_C7 [("HOME", "/root")] EchoMCPServer.init
      [("id", .num 4), ("method", .str "tools/call"),
        ("params", .obj [("name", .str "get_env"),
          ("arguments", .obj [("name", .str "HOME")])])]
      [("name", .str "get_env"), ("arguments", .obj [("name", .str "HOME")])]
      [("name", .str "HOME")] "HOME" rfl rfl rfl rfl rfl).1 "/root" rfl,
    (claim_C7 [("HOME", "/root")] EchoMCPServer.init
      [("id", .num 4), ("method", .str "tools/call"),
        ("params", .obj [("name", .str "get_env"),
          ("arguments", .obj [("name", .str "NOPE")])])]
      [("name", .str "get_env"), ("arguments", .obj [("name", .str "NOPE")])]
      [("name", .str "NOPE")] "NOPE" rfl rfl rfl rfl rfl).2 rfl⟩

/-- C8: every `tools/call` request whose tool name is a string other than
`echo`, `ping`, `get_env` receives an error response with code -32601 and
message `"Unknown tool: " ++ name`. -/
theorem claim_C8 (env : Env) (s : EchoMCPServer)
    (fields pf : List (String × JVal)) (t : String)
    (hm : lookupLast fields "method" = some (.str "tools/call"))
    (hp : lookupLast fields "params" = some (.obj pf))
    (hname : lookupLast pf "name" = some (.str t))
    (h1 : t ≠ "echo") (h2 : t ≠ "ping") (h3 : t ≠ "get_env") :
    (s.handle_request env (.obj fields)).1 =
      .normal [send_error ((lookupLast fields "id").getD .null) (-32601)
        ("Unknown tool: " ++ t)] := by
  simp [EchoMCPServer.handle_request, handleTry, hm, hp, hname, h1, h2, h3, pyStr]

theorem claim_C8_witness :
    ("frob" : String) ≠ "echo" ∧ ("frob" : String) ≠ "ping" ∧
    ("frob" : String) ≠ "get_env" ∧
    (EchoMCPServer.init.handle_request []
        (.obj [("id", .num 3), ("method", .str "tools/call"),
          ("params", .obj [("name", .str "frob")])])).1 =
      .normal [send_error (.num 3) (-32601) "Unknown tool: frob"] :=
  ⟨by decide, by decide, by decide,
    claim_C8 [] EchoMCPServer.init
      [("id", .num 3), ("method", .str "tools/call"),
        ("params", .obj [("name", .str "frob")])]
      [("name", .str "frob")] "frob" rfl rfl rfl
      (by decide) (by decide) (by decide)⟩

/-- C10: a `tools/call` request whose `params` mapping lacks a `name`
member falls through to the unknown-tool branch: the error response has
code -32601 and message `"Unknown tool: None"` (Python renders the
absent name, `None`, into the f-string). -/
theorem claim_C10 (env : Env) (s : EchoMCPServer)
    (fields pf : List (String × JVal))
    (hm : lookupLast fields "method" = some (.str "tools/call"))
    (hp : lookupLast fields "params" = some (.obj pf))
    (hname : lookupLast pf "name" = none) :
    (s.handle_request env (.obj fields)).1 =
      .normal [send_error ((lookupLast fields "id").getD .null) (-32601)
        "Unknown tool: None"] := by
  simp [EchoMCPServer.handle_request, handleTry, hm, hp, hname, pyStr, pyRepr]

theorem claim_C10_witness :
    lookupLast [("arguments", JVal.obj [])] "name" = none ∧
    (EchoMCPServer.init.handle_request []
        (.obj [("id", .num 6), ("method", .str "tools/call"),
          ("params", .obj [("arguments", .obj [])])])).1 =
      .normal [send_error (.num 6) (-32601) "Unknown tool: None"] :=
  ⟨rfl, claim_C10 [] EchoMCPServer.init
    [("id", .num 6), ("method", .str "tools/call"),
      ("params", .obj [("arguments", .obj [])])]
    [("arguments", .obj [])] rfl rfl rfl⟩

theorem jget_send_response_id (rid r : JVal) :
    jgetObj (send_response rid r) "id" = some rid := by
  simp [jgetObj, send_response, lookupLast]

theorem jget_send_error_id (rid : JVal) (code : Int) (msg : String) :
    jgetObj (send_error rid code msg) "id" = some rid := by
  simp [jgetObj, send_error, lookupLast]

theorem isSuccess_send_response (rid r : JVal) : isSuccessResp (send_response rid r) := by
  simp [isSuccessResp, jgetObj, send_response, lookupLast]

theorem isError_send_error (rid : JVal) (code : Int) (msg : String) :
    isErrorResp (send_error rid code msg) := by
  simp [isErrorResp, jgetObj, send_error, lookupLast]

theorem handle_shutdown (env : Env) (s : EchoMCPServer)
    (fields : List (String × JVal))
    (hm : lookupLast fields "method" = some (.str "shutdown")) :
    (s.handle_request env (.obj fields)).1 =
      .exitZero [send_response ((lookupLast fields "id").getD .null) (.obj [])] := by
  simp [EchoMCPServer.handle_request, handleTry, hm]

/-- C9: the session state is inert: `message_id` starts at 0,
`handle_request` returns the state unchanged, the outcome does not depend
on the state, and the read loop preserves the state it was started
with (stateless dispatch). -/
theorem claim_C9 :
    EchoMCPServer.init.message_id = 0 ∧
    (∀ (s : EchoMCPServer) (env : Env) (req : JVal),
      (s.handle_request env req).2 = s) ∧
    (∀ (s t : EchoMCPServer) (env : Env) (req : JVal),
      (s.handle_request env req).1 = (t.handle_request env req).1) ∧
    (∀ (env : Env) (s : EchoMCPServer) (buffer : String) (lines : List String),
      (runLines env s buffer lines).server = s) := by
  refine ⟨rfl, fun s env req => rfl, fun s t env req => rfl, ?_⟩
  intro env s buffer lines
  induction lines generalizing buffer with
  | nil => rfl
  | cons l rest ih =>
    rw [runLines]
    by_cases hl : l = ""
    · simp [hl]
    · simp only [if_neg hl]
      split
      · split
        next outs s2 heq =>
          have hs : s2 = s := (congrArg Prod.snd heq).symm
          subst hs
          exact ih ""
        next outs s2 heq =>
          exact ((congrArg Prod.snd heq).symm : s2 = s)
        next outs e s2 heq =>
          exact ((congrArg Prod.snd heq).symm : s2 = s)
      · split
        · exact ih ""
        · exact ih (buffer ++ l)

theorem handleTry_exit (env : Env) (req : JVal) (outs : List JVal)
    (h : handleTry env req = .ok (outs, true)) :
    ∃ fields, req = .obj fields ∧
      lookupLast fields "method" = some (.str "shutdown") := by
  cases req with
  | obj fields =>
    refine ⟨fields, rfl, ?_⟩
    simp only [handleTry] at h
    split at h
    · simp at h
    · split at h
      · split at h
        · split at h
          · simp at h
          · simp at h
        · simp at h
        · split at h
          · split at h
            · simp at h
            · simp at h
          · simp at h
        · simp at h
      · simp at h
    · next heq =>
      cases hlk : lookupLast fields "method" with
      | none => rw [hlk] at heq; simp at heq
      | some v => rw [hlk] at heq; simp at heq; rw [heq]
    · simp at h
  | null => simp [handleTry] at h
  | bool b => simp [handleTry] at h
  | num n => simp [handleTry] at h
  | str s => simp [handleTry] at h
  | arr xs => simp [handleTry] at h

theorem handleTry_ok_single (env : Env) (fields : List (String × JVal))
    (outs : List JVal) (b : Bool)
    (h : handleTry env (.obj fields) = .ok (outs, b)) :
    ∃ resp, outs = [resp] ∧
      jgetObj resp "id" = some ((lookupLast fields "id").getD .null) ∧
      (isSuccessResp resp ∨ isErrorResp resp) := by
  simp only [handleTry] at h
  split at h
  · rw [Except.ok.injEq, Prod.mk.injEq] at h
    exact ⟨_, h.1.symm, jget_send_response_id _ _, Or.inl (isSuccess_send_response _ _)⟩
  · split at h
    · split at h
      · split at h
        · rw [Except.ok.injEq, Prod.mk.injEq] at h
          exact ⟨_, h.1.symm, jget_send_response_id _ _, Or.inl (isSuccess_send_response _ _)⟩
        · exact absurd h (by simp)
      · rw [Except.ok.injEq, Prod.mk.injEq] at h
        exact ⟨_, h.1.symm, jget_send_response_id _ _, Or.inl (isSuccess_send_response _ _)⟩
      · split at h
        · split at h
          · rw [Except.ok.injEq, Prod.mk.injEq] at h
            exact ⟨_, h.1.symm, jget_send_response_id _ _, Or.inl (isSuccess_send_response _ _)⟩
          · exact absurd h (by simp)
        · exact absurd h (by simp)
      · rw [Except.ok.injEq, Prod.mk.injEq] at h
        exact ⟨_, h.1.symm, jget_send_error_id _ _ _, Or.inr (isError_send_error _ _ _)⟩
    · exact absurd h (by simp)
  · rw [Except.ok.injEq, Prod.mk.injEq] at h
    exact ⟨_, h.1.symm, jget_send_response_id _ _, Or.inl (isSuccess_send_response _ _)⟩
  · rw [Except.ok.injEq, Prod.mk.injEq] at h
    exact ⟨_, h.1.symm, jget_send_error_id _ _ _, Or.inr (isError_send_error _ _ _)⟩

theorem handleTry_obj_error (env : Env) (s : EchoMCPServer)
    (fields : List (String × JVal)) (e : PyExc)
    (h : handleTry env (.obj fields) = .error e) :
    (s.handle_request env (.obj fields)).1 =
      .normal [send_error ((lookupLast fields "id").getD .null) (-32603)
        ("Internal error: " ++ excStr e)] := by
  simp only [EchoMCPServer.handle_request, h]

theorem handle_request_obj_single (env : Env) (s : EchoMCPServer)
    (fields : List (String × JVal)) :
    ∃ resp, ((s.handle_request env (.obj fields)).1).outputs = [resp] ∧
      jgetObj resp "id" = some ((lookupLast fields "id").getD .null) ∧
      (isSuccessResp resp ∨ isErrorResp resp) := by
  cases hr : handleTry env (.obj fields) with
  | ok p =>
    obtain ⟨outs, b⟩ := p
    obtain ⟨resp, ho, hid, hse⟩ := handleTry_ok_single env fields outs b hr
    subst ho
    refine ⟨resp, ?_, hid, hse⟩
    simp only [EchoMCPServer.handle_request, hr]
    cases b <;> rfl
  | error e =>
    refine ⟨send_error ((lookupLast fields "id").getD .null) (-32603)
      ("Internal error: " ++ excStr e), ?_, jget_send_error_id _ _ _,
      Or.inr (isError_send_error _ _ _)⟩
    simp only [EchoMCPServer.handle_request, hr]
    rfl

theorem runLines_dispatch (env : Env) (s : EchoMCPServer) (buffer l : String)
    (rest : List String) (req : JVal) (hne : l ≠ "")
    (hj : jsonLoads (buffer ++ l) = some req) :
    runLines env s buffer (l :: rest) =
      dispatchCont env (s.handle_request env req).1 s rest := by
  rw [runLines]
  simp only [if_neg hne]
  split
  next request heq =>
    rw [hj] at heq
    injection heq with hreq
    subst hreq
    have h2 : s.handle_request env req = ((s.handle_request env req).1, s) := rfl
    rw [h2]
    cases ho : (s.handle_request env req).1 <;> rfl
  next heq =>
    rw [hj] at heq
    exact Option.noConfusion heq

theorem runLines_keep (env : Env) (s : EchoMCPServer) (buffer l : String)
    (rest : List String) (hne : l ≠ "")
    (hj : jsonLoads (buffer ++ l) = none)
    (hlen : (buffer ++ l).length ≤ 10000) :
    runLines env s buffer (l :: rest) = runLines env s (buffer ++ l) rest := by
  rw [runLines]
  simp only [if_neg hne]
  split
  next request heq =>
    rw [hj] at heq
    exact Option.noConfusion heq
  next heq =>
    rw [if_neg (Nat.not_lt.mpr hlen)]

theorem runLines_overflow (env : Env) (s : EchoMCPServer) (buffer l : String)
    (rest : List String) (hne : l ≠ "")
    (hj : jsonLoads (buffer ++ l) = none)
    (hlen : (buffer ++ l).length > 10000) :
    runLines env s buffer (l :: rest) =
      ⟨parseErrorResp :: (runLines env s "" rest).outputs,
        (runLines env s "" rest).exitCode, (runLines env s "" rest).server⟩ := by
  rw [runLines]
  simp only [if_neg hne]
  split
  next request heq =>
    rw [hj] at heq
    exact Option.noConfusion heq
  next heq =>
    rw [if_pos hlen]

/-- C1: every message that is a JSON object with an `id` member receives
exactly one response (success or error) whose `id` echoes the inbound
value, and the read loop emits each dispatched message's responses in
the order the messages parse, before processing the next line. -/
theorem claim_C1 :
    (∀ (env : Env) (s : EchoMCPServer) (fields : List (String × JVal)) (v : JVal),
      lookupLast fields "id" = some v →
      ∃ resp, ((s.handle_request env (.obj fields)).1).outputs = [resp] ∧
        jgetObj resp "id" = some v ∧ (isSuccessResp resp ∨ isErrorResp resp)) ∧
    (∀ (env : Env) (s : EchoMCPServer) (l : String) (ls : List String)
        (req : JVal) (outs : List JVal),
      l ≠ "" → jsonLoads l = some req →
      (s.handle_request env req).1 = .normal outs →
      runLines env s "" (l :: ls) =
        ⟨outs ++ (runLines env s "" ls).outputs, (runLines env s "" ls).exitCode,
          (runLines env s "" ls).server⟩) := by
  constructor
  · intro env s fields v hid
    obtain ⟨resp, ho, hid2, hse⟩ := handle_request_obj_single env s fields
    rw [hid] at hid2
    exact ⟨resp, ho, hid2, hse⟩
  · intro env s l ls req outs hne hj hh
    have hstep := runLines_dispatch env s "" l ls req hne
      (by rw [str_empty_append]; exact hj)
    rw [hstep, hh]
    rfl

theorem claim_C1_witness :
    lookupLast [("id", JVal.num 1), ("method", JVal.str "ping")] "id" =
      some (.num 1) ∧
    (∃ resp, ((EchoMCPServer.init.handle_request []
        (.obj [("id", .num 1), ("method", .str "ping")])).1).outputs = [resp] ∧
      jgetObj resp "id" = some (.num 1) ∧ (isSuccessResp resp ∨ isErrorResp resp)) ∧
    ("\x7b\"id\":1,\"method\":\"ping\"\x7d\n" : String) ≠ "" ∧
    jsonLoads "\x7b\"id\":1,\"method\":\"ping\"\x7d\n" =
      some (.obj [("id", .num 1), ("method", .str "ping")]) ∧
    (EchoMCPServer.init.handle_request []
        (.obj [("id", .num 1), ("method", .str "ping")])).1 =
      .normal [send_error (.num 1) (-32601) "Method not found: ping"] ∧
    runLines [] EchoMCPServer.init "" ["\x7b\"id\":1,\"method\":\"ping\"\x7d\n"] =
      ⟨[send_error (.num 1) (-32601) "Method not found: ping"] ++
          (runLines [] EchoMCPServer.init "" []).outputs,
        (runLines [] EchoMCPServer.init "" []).exitCode,
        (runLines [] EchoMCPServer.init "" []).server⟩ :=
  ⟨rfl,
    claim_C1.1 [] EchoMCPServer.init
      [("id", .num 1), ("method", .str "ping")] (.num 1) rfl,
    by decide, rfl, rfl,
    claim_C1.2 [] EchoMCPServer.init "\x7b\"id\":1,\"method\":\"ping\"\x7d\n" []
      (.obj [("id", .num 1), ("method", .str "ping")])
      [send_error (.num 1) (-32601) "Method not found: ping"]
      (by decide) rfl rfl⟩

/-- C2 (amended): for every parsed message that is a JSON object, a
failure raised by the handler body is caught at the dispatch boundary:
one error response with code -32603 and message
`"Internal error: <description>"` is sent, correlated to the request's
`id` (null when absent), and the loop continues with the next lines. -/
theorem claim_C2_amended :
    (∀ (env : Env) (s : EchoMCPServer) (fields : List (String × JVal)) (e : PyExc),
      handleTry env (.obj fields) = .error e →
      (s.handle_request env (.obj fields)).1 =
        .normal [send_error ((lookupLast fields "id").getD .null) (-32603)
          ("Internal error: " ++ excStr e)]) ∧
    (∀ (env : Env) (s : EchoMCPServer) (l : String) (rest : List String)
        (fields : List (String × JVal)) (e : PyExc),
      l ≠ "" → jsonLoads l = some (.obj fields) →
      handleTry env (.obj fields) = .error e →
      runLines env s "" (l :: rest) =
        ⟨send_error ((lookupLast fields "id").getD .null) (-32603)
            ("Internal error: " ++ excStr e) :: (runLines env s "" rest).outputs,
          (runLines env s "" rest).exitCode, (runLines env s "" rest).server⟩) := by
  refine ⟨fun env s fields e h => handleTry_obj_error env s fields e h, ?_⟩
  intro env s l rest fields e hne hj h
  have hstep := runLines_dispatch env s "" l rest (.obj fields) hne
    (by rw [str_empty_append]; exact hj)
  rw [hstep, handleTry_obj_error env s fields e h]
  rfl

theorem claim_C2_amended_witness :
    handleTry [] (.obj [("id", .num 7), ("method", .str "tools/call"),
        ("params", .num 3)]) = .error (.attributeError "int" "get") ∧
    ("\x7b\"id\":7,\"method\":\"tools/call\",\"params\":3\x7d\n" : String) ≠ "" ∧
    jsonLoads "\x7b\"id\":7,\"method\":\"tools/call\",\"params\":3\x7d\n" =
      some (.obj [("id", .num 7), ("method", .str "tools/call"),
        ("params", .num 3)]) ∧
    (EchoMCPServer.init.handle_request []
        (.obj [("id", .num 7), ("method", .str "tools/call"),
          ("params", .num 3)])).1 =
      .normal [send_error (.num 7) (-32603)
        "Internal error: 'int' object has no attribute 'get'"] ∧
    runLines [] EchoMCPServer.init ""
        ["\x7b\"id\":7,\"method\":\"tools/call\",\"params\":3\x7d\n"] =
      ⟨send_error (.num 7) (-32603)
          "Internal error: 'int' object has no attribute 'get'" ::
          (runLines [] EchoMCPServer.init "" []).outputs,
        (runLines [] EchoMCPServer.init "" []).exitCode,
        (runLines [] EchoMCPServer.init "" []).server⟩ :=
  ⟨rfl, by decide, rfl,
    claim_C2_amended.1 [] EchoMCPServer.init
      [("id", .num 7), ("method", .str "tools/call"), ("params", .num 3)]
      (.attributeError "int" "get") rfl,
    claim_C2_amended.2 [] EchoMCPServer.init
      "\x7b\"id\":7,\"method\":\"tools/call\",\"params\":3\x7d\n" []
      [("id", .num 7), ("method", .str "tools/call"), ("params", .num 3)]
      (.attributeError "int" "get") (by decide) rfl rfl⟩

/-- C2 is false as stated: the parsed message `5` (valid JSON, not an
object) makes the handler body raise, the `except Exception` boundary
itself re-raises while reading `request.get("id")`, and the fault escapes
the dispatcher: no response at all is emitted (in particular none with
code -32603), the process exits with status 1, and the following
`shutdown` request is never served. -/
theorem claim_C2_counterexample :
    jsonLoads "5\n" = some (.num 5) ∧
    (EchoMCPServer.init.handle_request [] (.num 5)).1 =
      .raised [] (.attributeError "int" "get") ∧
    (runLines [] EchoMCPServer.init ""
        ["5\n", "\x7b\"id\":1,\"method\":\"shutdown\"\x7d\n"]).outputs = [] ∧
    (runLines [] EchoMCPServer.init ""
        ["5\n", "\x7b\"id\":1,\"method\":\"shutdown\"\x7d\n"]).exitCode = 1 :=
  ⟨rfl, rfl, rfl, rfl⟩

/-- C3: a request split across two reads is kept in the buffer after the
first read (which fails to parse and stays at or below the 10,000
character ceiling) with nothing emitted, and once the second read
completes the document it is parsed and dispatched exactly once, the
loop continuing normally afterwards. -/
theorem claim_C3 :
    (∀ (env : Env) (s : EchoMCPServer) (l1 : String) (ls : List String),
      l1 ≠ "" → jsonLoads l1 = none → l1.length ≤ 10000 →
      runLines env s "" (l1 :: ls) = runLines env s l1 ls) ∧
    (∀ (env : Env) (s : EchoMCPServer) (l1 l2 : String) (rest : List String)
        (req : JVal),
      l1 ≠ "" → l2 ≠ "" → jsonLoads l1 = none → l1.length ≤ 10000 →
      jsonLoads (l1 ++ l2) = some req →
      runLines env s "" (l1 :: l2 :: rest) =
        dispatchCont env (s.handle_request env req).1 s rest) := by
  have hkeep : ∀ (env : Env) (s : EchoMCPServer) (l1 : String) (ls : List String),
      l1 ≠ "" → jsonLoads l1 = none → l1.length ≤ 10000 →
      runLines env s "" (l1 :: ls) = runLines env s l1 ls := by
    intro env s l1 ls h1 h2 h3
    have h := runLines_keep env s "" l1 ls h1
      (by rw [str_empty_append]; exact h2) (by rw [str_empty_append]; exact h3)
    rw [str_empty_append] at h
    exact h
  refine ⟨hkeep, ?_⟩
  intro env s l1 l2 rest req h1 h2 h3 h4 h5
  rw [hkeep env s l1 (l2 :: rest) h1 h3 h4]
  exact runLines_dispatch env s l1 l2 rest req h2 h5

theorem claim_C3_witness :
    ("\x7b\"jsonrpc\":\"2." : String) ≠ "" ∧
    ("0\",\"id\":1,\"method\":\"ping\"\x7d\n" : String) ≠ "" ∧
    jsonLoads "\x7b\"jsonrpc\":\"2." = none ∧
    ("\x7b\"jsonrpc\":\"2." : String).length ≤ 10000 ∧
    jsonLoads ("\x7b\"jsonrpc\":\"2." ++ "0\",\"id\":1,\"method\":\"ping\"\x7d\n") =
      some (.obj [("jsonrpc", .str "2.0"), ("id", .num 1),
        ("method", .str "ping")]) ∧
    runLines [] EchoMCPServer.init ""
        ["\x7b\"jsonrpc\":\"2.", "0\",\"id\":1,\"method\":\"ping\"\x7d\n"] =
      runLines [] EchoMCPServer.init "\x7b\"jsonrpc\":\"2."
        ["0\",\"id\":1,\"method\":\"ping\"\x7d\n"] ∧
    runLines [] EchoMCPServer.init ""
        ["\x7b\"jsonrpc\":\"2.", "0\",\"id\":1,\"method\":\"ping\"\x7d\n"] =
      dispatchCont []
        ((EchoMCPServer.init.handle_request []
            (.obj [("jsonrpc", .str "2.0"), ("id", .num 1),
              ("method", .str "ping")])).1)
        EchoMCPServer.init [] :=
  ⟨by decide, by decide, rfl, by decide, rfl,
    claim_C3.1 [] EchoMCPServer.init "\x7b\"jsonrpc\":\"2."
      ["0\",\"id\":1,\"method\":\"ping\"\x7d\n"] (by decide) rfl (by decide),
    claim_C3.2 [] EchoMCPServer.init "\x7b\"jsonrpc\":\"2."
      "0\",\"id\":1,\"method\":\"ping\"\x7d\n" []
      (.obj [("jsonrpc", .str "2.0"), ("id", .num 1), ("method", .str "ping")])
      (by decide) (by decide) rfl (by decide) rfl⟩

/-- C4: when the accumulated buffer plus the new read fails to parse and
exceeds the 10,000 character ceiling, the loop emits exactly the one
standalone parse-error response (code -32700, message `"Parse error"`,
no `id` member), hands nothing to the dispatcher, resets the buffer and
continues from a clean state. -/
theorem claim_C4 (env : Env) (s : EchoMCPServer) (buffer l : String)
    (rest : List String) (hne : l ≠ "")
    (hj : jsonLoads (buffer ++ l) = none)
    (hlen : (buffer ++ l).length > 10000) :
    runLines env s buffer (l :: rest) =
      ⟨parseErrorResp :: (runLines env s "" rest).outputs,
        (runLines env s "" rest).exitCode, (runLines env s "" rest).server⟩ ∧
    jgetObj parseErrorResp "id" = none ∧
    jgetObj parseErrorResp "error" =
      some (.obj [("code", .num (-32700)), ("message", .str "Parse error")]) :=
  ⟨runLines_overflow env s buffer l rest hne hj hlen, rfl, rfl⟩

theorem claim_C4_witness :
    ("y\n" : String) ≠ "" ∧
    jsonLoads (bigChunk ++ "y\n") = none ∧
    (bigChunk ++ "y\n").length > 10000 ∧
    (runLines [] EchoMCPServer.init bigChunk ["y\n"] =
      ⟨parseErrorResp :: (runLines [] EchoMCPServer.init "" []).outputs,
        (runLines [] EchoMCPServer.init "" []).exitCode,
        (runLines [] EchoMCPServer.init "" []).server⟩ ∧
    jgetObj parseErrorResp "id" = none ∧
    jgetObj parseErrorResp "error" =
      some (.obj [("code", .num (-32700)), ("message", .str "Parse error")])) :=
  ⟨by decide, jsonLoads_bigChunk, by rw [bigChunk_append_length]; decide,
    claim_C4 [] EchoMCPServer.init bigChunk "y\n" [] (by decide)
      jsonLoads_bigChunk (by rw [bigChunk_append_length]; decide)⟩

/-- C5: a request whose method is `shutdown` gets a success response with
an empty `result` echoing its `id`, after which the loop stops with exit
status 0 and processes no further input; and `shutdown` is the only
method whose handling ends the process this way. -/
theorem claim_C5 :
    (∀ (env : Env) (s : EchoMCPServer) (fields : List (String × JVal)),
      lookupLast fields "method" = some (.str "shutdown") →
      (s.handle_request env (.obj fields)).1 =
        .exitZero [send_response ((lookupLast fields "id").getD .null) (.obj [])]) ∧
    (∀ (env : Env) (s : EchoMCPServer) (l : String) (rest : List String)
        (fields : List (String × JVal)),
      l ≠ "" → jsonLoads l = some (.obj fields) →
      lookupLast fields "method" = some (.str "shutdown") →
      runLines env s "" (l :: rest) =
        ⟨[send_response ((lookupLast fields "id").getD .null) (.obj [])], 0, s⟩) ∧
    (∀ (env : Env) (s : EchoMCPServer) (req : JVal) (outs : List JVal),
      (s.handle_request env req).1 = .exitZero outs →
      ∃ fields, req = .obj fields ∧
        lookupLast fields "method" = some (.str "shutdown")) := by
  refine ⟨fun env s fields hm => handle_shutdown env s fields hm, ?_, ?_⟩
  · intro env s l rest fields hne hj hm
    have hstep := runLines_dispatch env s "" l rest (.obj fields) hne
      (by rw [str_empty_append]; exact hj)
    rw [hstep, handle_shutdown env s fields hm]
    rfl
  · intro env s req outs h
    simp only [EchoMCPServer.handle_request] at h
    cases hr : handleTry env req with
    | ok p =>
      obtain ⟨outs2, b⟩ := p
      simp only [hr] at h
      cases b
      · simp at h
      · exact handleTry_exit env req outs2 hr
    | error e =>
      simp only [hr] at h
      cases req <;> simp at h

theorem claim_C5_witness :
    lookupLast [("id", JVal.num 9), ("method", JVal.str "shutdown")] "method" =
      some (.str "shutdown") ∧
    ("\x7b\"id\":9,\"method\":\"shutdown\"\x7d\n" : String) ≠ "" ∧
    jsonLoads "\x7b\"id\":9,\"method\":\"shutdown\"\x7d\n" =
      some (.obj [("id", .num 9), ("method", .str "shutdown")]) ∧
    (EchoMCPServer.init.handle_request []
        (.obj [("id", .num 9), ("method", .str "shutdown")])).1 =
      .exitZero [send_response (.num 9) (.obj [])] ∧
    runLines [] EchoMCPServer.init ""
        ["\x7b\"id\":9,\"method\":\"shutdown\"\x7d\n",
          "\x7b\"id\":1,\"method\":\"ping\"\x7d\n"] =
      ⟨[send_response (.num 9) (.obj [])], 0, EchoMCPServer.init⟩ ∧
    (∃ fields, JVal.obj [("id", JVal.num 9), ("method", JVal.str "shutdown")] =
        .obj fields ∧ lookupLast fields "method" = some (.str "shutdown")) :=
  ⟨rfl, by decide, rfl,
    claim_C5.1 [] EchoMCPServer.init
      [("id", .num 9), ("method", .str "shutdown")] rfl,
    claim_C5.2.1 [] EchoMCPServer.init "\x7b\"id\":9,\"method\":\"shutdown\"\x7d\n"
      ["\x7b\"id\":1,\"method\":\"ping\"\x7d\n"]
      [("id", .num 9), ("method", .str "shutdown")] (by decide) rfl rfl,
    claim_C5.2.2 [] EchoMCPServer.init
      (.obj [("id", .num 9), ("method", .str "shutdown")])
      [send_response (.num 9) (.obj [])] rfl⟩
